import Mathlib

/-!
Verification of the `jiacrontab_admin` user handlers (user.go): a shallow
embedding of the `Login`, `AuditJob` and `GetUserList` handlers, and proofs
of the authorization, dispatch and audit-event properties stated in the
design specification.

The handlers are modelled as pure functions.  Every interaction with an
external collaborator (request-body validation, token parsing, the
node-permission check, the remote RPC channel, the database, the event
store) is an input supplied through an environment record, and every
observable effect (the HTTP response, the RPC calls issued, the events
published, the database queries run) is part of the returned value, so the
order and presence of side effects is visible in the result.
-/

namespace Jiacrontab

/-- Identity claims carried by the signed token (struct `CustomerClaims`,
user.go lines 17-24). -/
structure CustomerClaims where
  UserID : Nat
  Mail : String
  Username : String
  GroupID : Nat
  Root : Bool
  ExpiresAt : Int
deriving Repr, DecidableEq

/-- Modelled from the spec: `models.SuperGroup.ID`, the reserved Super Group
identifier.  The `models` package is not under src/; `IninAdminUser`
(user.go line 222) probes `group_id=1` before creating the first admin with
`GroupID = models.SuperGroup.ID`, and the spec calls it "One reserved ID". -/
def SuperGroupID : Nat := 1

/-- Modelled from the spec: `IsSuper(claims)` — true iff the caller's group
is the Super Group (AuthorizationGuard, spec 4.2). -/
def IsSuper (claims : CustomerClaims) : Bool :=
  claims.GroupID == SuperGroupID

/-- Modelled from the spec: `OwnsGroup(claims, targetGroupID)` — caller's
group equals the target group, or caller is super (spec 4.2). -/
def OwnsGroup (claims : CustomerClaims) (targetGroupID : Nat) : Bool :=
  claims.GroupID == targetGroupID || IsSuper claims

/-- Modelled from the spec: `OwnsNode(claims, addr)` resolves the node's
owning group through the node-lookup collaborator and delegates to
`OwnsGroup`; fails closed when the node cannot be resolved (spec 4.2).
This is the predicate behind `ctx.verifyNodePermission`, whose body is not
under src/. -/
def OwnsNode (claims : CustomerClaims) (resolveNodeGroup : String → Option Nat)
    (addr : String) : Bool :=
  match resolveNodeGroup addr with
  | some g => OwnsGroup claims g
  | none => false

/-! ### AuditJob (user.go lines 155-206) -/

/-- Request body of `AuditJob` (`AuditJobReqParams`): target node address,
job type and the batch of job ids. -/
structure AuditJobReqParams where
  Addr : String
  JobType : String
  JobIDs : List Nat
deriving Repr, DecidableEq

/-- A crontab job record as returned by the remote node (`models.CrontabJob`);
only the `Name` field is read by the handler. -/
structure CrontabJob where
  Name : String
deriving Repr, DecidableEq

/-- A daemon job record as returned by the remote node (`models.DaemonJob`);
only the `Name` field is read by the handler. -/
structure DaemonJob where
  Name : String
deriving Repr, DecidableEq

/-- The event kind tags passed to `ctx.pubEvent` by the handlers. -/
inductive EventKind
  | auditCrontabJob
  | auditDaemonJob
deriving Repr, DecidableEq

/-- An audit event as published by `ctx.pubEvent(subject, kind, addr, payload)`:
the payload is always the request body, kept here as the command. -/
structure Event where
  subject : String
  kind : EventKind
  addr : String
  payload : AuditJobReqParams
deriving Repr, DecidableEq

/-- The HTTP response the `AuditJob` handler sends. -/
inductive Resp
  | respBasicError (e : String)
  | respNotAllowed
  | respRPCError (e : String)
  | respSucc
deriving Repr, DecidableEq

/-- One remote call issued through `rpcCall(addr, method, args)`. -/
structure RpcCall where
  addr : String
  method : String
  jobIDs : List Nat
deriving Repr, DecidableEq

/-- Environment of one `AuditJob` request: the outcomes of every external
interaction the handler can perform.  `nodePermission` is the boolean
returned by `ctx.verifyNodePermission(reqBody.Addr)`; `crontabReply` and
`daemonReply` are the replies the RPC channel would give to the crontab and
daemon audit calls; `eventWriteOk` is whether persisting the published
event would succeed — modelled from the spec: `ctx.pubEvent` is not under
src/, and the spec's EventPublisher never fails the enclosing operation. -/
structure AuditEnv where
  verifyErr : Option String
  nodePermission : Bool
  crontabReply : Except String (List CrontabJob)
  daemonReply : Except String (List DaemonJob)
  eventWriteOk : Bool

/-- Everything observable about one `AuditJob` request: the response, the
remote calls issued, and the events published, in order. -/
structure AuditOutcome where
  resp : Resp
  calls : List RpcCall
  events : List Event
deriving Repr, DecidableEq

/-- The `AuditJob` handler (user.go lines 155-206): validate the body,
check node permission, check super-group-or-root, branch on `JobType`
to issue one RPC call, collect the returned job names, publish one event
with the names joined by ",", and respond success. -/
def AuditJob (claims : CustomerClaims) (reqBody : AuditJobReqParams)
    (env : AuditEnv) : AuditOutcome :=
  match env.verifyErr with
  | some e => ⟨Resp.respBasicError e, [], []⟩
  | none =>
    if env.nodePermission = false then
      ⟨Resp.respNotAllowed, [], []⟩
    else if claims.GroupID ≠ SuperGroupID ∧ claims.Root = false then
      ⟨Resp.respNotAllowed, [], []⟩
    else if reqBody.JobType = "crontab" then
      let call : RpcCall := ⟨reqBody.Addr, "CrontabJob.Audit", reqBody.JobIDs⟩
      match env.crontabReply with
      | Except.error e => ⟨Resp.respRPCError e, [call], []⟩
      | Except.ok reply =>
        let targetNames := reply.map (fun v => v.Name)
        ⟨Resp.respSucc, [call],
          [⟨String.intercalate "," targetNames, EventKind.auditCrontabJob,
            reqBody.Addr, reqBody⟩]⟩
    else
      let call : RpcCall := ⟨reqBody.Addr, "DaemonJob.Audit", reqBody.JobIDs⟩
      match env.daemonReply with
      | Except.error e => ⟨Resp.respRPCError e, [call], []⟩
      | Except.ok reply =>
        let targetNames := reply.map (fun v => v.Name)
        ⟨Resp.respSucc, [call],
          [⟨String.intercalate "," targetNames, EventKind.auditDaemonJob,
            reqBody.Addr, reqBody⟩]⟩

/-! ### GetUserList (user.go lines 358-419) -/

/-- Request body of `GetUserList` (`GetUsersParams`). -/
structure GetUsersParams where
  IsAll : Bool
  QueryGroupID : Nat
  Page : Int
  Pagesize : Int
deriving Repr, DecidableEq

/-- A stored user record (`models.User`), with the fields the handlers read. -/
structure User where
  ID : Nat
  Username : String
  Mail : String
  GroupID : Nat
  Root : Bool
deriving Repr, DecidableEq

/-- Database outcome for one gorm query: success, `sql.ErrNoRows`
(tolerated by the handlers), or any other error. -/
inductive DbResult (α : Type)
  | ok (a : α)
  | noRows
  | dbError (e : String)
deriving Repr, DecidableEq

/-- Environment of one `GetUserList` request: outcome of `ctx.Valid`,
outcome of `ctx.parseClaimsFromToken`, and the database replies to the
count and find queries. -/
structure UserListEnv where
  validErr : Option String
  claimsResult : Except String CustomerClaims
  countReply : DbResult Nat
  findReply : DbResult (List User)

/-- Observable steps of one `GetUserList` request, in execution order:
each response sent and each external step reached.  The handler can emit
more than one response because the parameter-validation branch
(user.go lines 367-369) responds without returning. -/
inductive UserAction
  | respParamError (e : String)
  | respJWTError (e : String)
  | respNotAllowed
  | respBasicError (e : String)
  | respDBError (e : String)
  | respSucc (total : Nat) (list : List User)
  | parseClaims
  | dbCountAll
  | dbCountGroup (g : Nat)
  | dbFindAll
  | dbFindGroup (g : Nat)
deriving Repr, DecidableEq

/-- The `GetUserList` handler (user.go lines 358-419) as the ordered list
of its observable actions.  Faithful to the source: when `ctx.Valid`
fails the handler responds a parameter error but does NOT return, so
execution continues into claims parsing, the two authorization checks,
and the database queries. -/
def GetUserList (reqBody : GetUsersParams) (env : UserListEnv) :
    List UserAction :=
  (match env.validErr with
   | some e => [UserAction.respParamError e]
   | none => []) ++
  UserAction.parseClaims ::
  match env.claimsResult with
  | Except.error e => [UserAction.respJWTError e]
  | Except.ok claims =>
    if reqBody.IsAll = true ∧ claims.GroupID ≠ SuperGroupID then
      [UserAction.respNotAllowed]
    else if reqBody.IsAll = false ∧ reqBody.QueryGroupID ≠ claims.GroupID ∧
        claims.GroupID ≠ SuperGroupID then
      [UserAction.respNotAllowed]
    else
      let queryGroupID :=
        if reqBody.QueryGroupID = 0 then claims.GroupID else reqBody.QueryGroupID
      (if reqBody.IsAll = true then UserAction.dbCountAll
       else UserAction.dbCountGroup queryGroupID) ::
      match env.countReply with
      | DbResult.dbError e => [UserAction.respBasicError e]
      | other =>
        let total := match other with
          | DbResult.ok n => n
          | _ => 0
        (if reqBody.IsAll = true then UserAction.dbFindAll
         else UserAction.dbFindGroup queryGroupID) ::
        match env.findReply with
        | DbResult.dbError e => [UserAction.respDBError e]
        | DbResult.noRows => [UserAction.respSucc total []]
        | DbResult.ok userList => [UserAction.respSucc total userList]

/-! ### Login (user.go lines 27-70) -/

/-- Request body of `Login` (`LoginReqParams`). -/
structure LoginReqParams where
  Username : String
  Passwd : String
  Remember : Bool
deriving Repr, DecidableEq

/-- Modelled from the spec: the outcome of the credential-store check
behind `user.Verify(username, passwd)` (`models.User.Verify` is not under
src/).  The spec's SessionIssuer distinguishes a failed lookup from a
failed password verification internally, but the routine hands the handler
a single boolean, collapsing the two failure cases. -/
inductive VerifyOutcome
  | found (u : User)
  | unknownUser
  | wrongPassword
deriving Repr, DecidableEq

/-- The boolean `user.Verify` actually returns: true only when the lookup
succeeded and the password verified. -/
def VerifyOutcome.toBool : VerifyOutcome → Bool
  | VerifyOutcome.found _ => true
  | VerifyOutcome.unknownUser => false
  | VerifyOutcome.wrongPassword => false

/-- A signed token: the embedded claims together with the signing key used
(standing for the HS256 signature; the signing itself is external). -/
structure Token where
  claims : CustomerClaims
  signingKey : String
deriving Repr, DecidableEq

/-- The response the `Login` handler sends. -/
inductive LoginResp
  | respParamError (e : String)
  | respAuthFailed (e : String)
  | respSucc (token : Token) (groupID : Nat) (root : Bool) (mail : String)
      (userID : Nat)
deriving Repr, DecidableEq

/-- Environment of one `Login` request: validation outcome, credential
check outcome, the current Unix time, and whether token signing fails. -/
structure LoginEnv where
  validErr : Option String
  verdict : VerifyOutcome
  now : Int
  signFails : Bool

/-- The `Login` handler (user.go lines 27-70): validate, verify
credentials (responding one fixed error on any failure), build the claims
with `ExpiresAt = cfg.Jwt.Expires + now`, overridden to `now + 30 days`
when `Remember` is set, sign the token and respond success. -/
def Login (reqBody : LoginReqParams) (cfgJwtExpires : Int)
    (cfgJwtSigningKey : String) (env : LoginEnv) : LoginResp :=
  match env.validErr with
  | some e => LoginResp.respParamError e
  | none =>
    match env.verdict with
    | VerifyOutcome.unknownUser => LoginResp.respAuthFailed "帐号或密码不正确"
    | VerifyOutcome.wrongPassword => LoginResp.respAuthFailed "帐号或密码不正确"
    | VerifyOutcome.found user =>
      let customerClaims : CustomerClaims :=
        { UserID := user.ID
          Mail := user.Mail
          Username := reqBody.Username
          GroupID := user.GroupID
          Root := user.Root
          ExpiresAt :=
            if reqBody.Remember then env.now + 24 * 30 * 60 * 60
            else cfgJwtExpires + env.now }
      if env.signFails then LoginResp.respAuthFailed "无法生成访问凭证"
      else LoginResp.respSucc ⟨customerClaims, cfgJwtSigningKey⟩
        user.GroupID user.Root user.Mail user.ID

/-! ### Theorems -/

/-- C1: when the node-permission check fails (with a request body that
passed validation), `AuditJob` responds not-allowed and performs no side
effect: no RPC call is issued and no audit event is published. -/
theorem auditJob_node_permission_denied_no_side_effect
    (claims : CustomerClaims) (reqBody : AuditJobReqParams) (env : AuditEnv)
    (hv : env.verifyErr = none) (hp : env.nodePermission = false) :
    AuditJob claims reqBody env = ⟨Resp.respNotAllowed, [], []⟩ := by
  obtain ⟨ve, np, cr, dr, ew⟩ := env
  simp only at hv hp
  subst hv hp
  simp [AuditJob]

/-- Witness for C1 at a concrete input: alice in group 7 without root,
node permission denied. -/
theorem auditJob_node_permission_denied_witness :
    AuditJob ⟨2, "alice@x", "alice", 7, false, 0⟩
        ⟨"192.168.1.1:2018", "crontab", [1, 2]⟩
        ⟨none, false, Except.ok [⟨"backup"⟩], Except.ok [], true⟩ =
      ⟨Resp.respNotAllowed, [], []⟩ :=
  auditJob_node_permission_denied_no_side_effect _ _ _ rfl rfl

/-- C2: when the remote audit call that the request reaches returns an
error, `AuditJob` surfaces an RPC error to the caller and publishes no
audit event. -/
theorem auditJob_rpc_error_no_event
    (claims : CustomerClaims) (reqBody : AuditJobReqParams) (env : AuditEnv)
    (e : String)
    (hv : env.verifyErr = none) (hp : env.nodePermission = true)
    (ha : claims.GroupID = SuperGroupID ∨ claims.Root = true)
    (herr : (reqBody.JobType = "crontab" ∧ env.crontabReply = Except.error e) ∨
      (reqBody.JobType ≠ "crontab" ∧ env.daemonReply = Except.error e)) :
    (AuditJob claims reqBody env).resp = Resp.respRPCError e ∧
    (AuditJob claims reqBody env).events = [] := by
  obtain ⟨ve, np, cr, dr, ew⟩ := env
  simp only at hv hp herr
  subst hv hp
  have hauth : ¬ (claims.GroupID ≠ SuperGroupID ∧ claims.Root = false) := by
    rcases ha with h | h <;> simp [h]
  rcases herr with ⟨hj, hc⟩ | ⟨hj, hd⟩ <;> subst_vars <;>
    simp [AuditJob, hauth, hj]

/-- Witness for C2 at a concrete input: root user, crontab branch, remote
call fails with a timeout. -/
theorem auditJob_rpc_error_witness :
    (AuditJob ⟨1, "root@x", "root", 1, true, 0⟩
        ⟨"192.168.1.1:2018", "crontab", [1]⟩
        ⟨none, true, Except.error "rpc timeout", Except.ok [], true⟩).resp =
      Resp.respRPCError "rpc timeout" ∧
    (AuditJob ⟨1, "root@x", "root", 1, true, 0⟩
        ⟨"192.168.1.1:2018", "crontab", [1]⟩
        ⟨none, true, Except.error "rpc timeout", Except.ok [], true⟩).events =
      [] :=
  auditJob_rpc_error_no_event _ _ _ _ rfl rfl (Or.inr rfl)
    (Or.inl ⟨rfl, rfl⟩)

/-- C10: every request that passes verification and both authorization
checks issues exactly one remote call: `CrontabJob.Audit` when `JobType`
is `"crontab"`, and `DaemonJob.Audit` for every other `JobType` value —
no `JobType` value is rejected at this branch. -/
theorem auditJob_single_rpc_call
    (claims : CustomerClaims) (reqBody : AuditJobReqParams) (env : AuditEnv)
    (hv : env.verifyErr = none) (hp : env.nodePermission = true)
    (ha : claims.GroupID = SuperGroupID ∨ claims.Root = true) :
    (AuditJob claims reqBody env).calls =
      [⟨reqBody.Addr,
        if reqBody.JobType = "crontab" then "CrontabJob.Audit"
        else "DaemonJob.Audit",
        reqBody.JobIDs⟩] := by
  obtain ⟨ve, np, cr, dr, ew⟩ := env
  simp only at hv hp
  subst hv hp
  have hauth : ¬ (claims.GroupID ≠ SuperGroupID ∧ claims.Root = false) := by
    rcases ha with h | h <;> simp [h]
  by_cases hj : reqBody.JobType = "crontab" <;>
    [cases cr; cases dr] <;> simp [AuditJob, hauth, hj]

/-- Witness for C10 at a concrete input: an unrecognized `JobType` string
is routed to `DaemonJob.Audit` rather than rejected. -/
theorem auditJob_single_rpc_call_witness :
    (AuditJob ⟨1, "root@x", "root", 1, true, 0⟩
        ⟨"192.168.1.1:2018", "weird", [3]⟩
        ⟨none, true, Except.ok [], Except.ok [⟨"d1"⟩], true⟩).calls =
      [⟨"192.168.1.1:2018",
        if ("weird" : String) = "crontab" then "CrontabJob.Audit"
        else "DaemonJob.Audit", [3]⟩] :=
  auditJob_single_rpc_call _ _ _ rfl rfl (Or.inr rfl)

/-- C3 counterexample: node ownership alone does NOT make the dispatch
proceed.  Alice (group 7, not root) owns the target node — `OwnsNode` is
true, so `verifyNodePermission` passes — yet `AuditJob` responds
not-allowed and issues no RPC call, because of the additional
super-group-or-root check at user.go line 172. -/
theorem auditJob_ownsNode_alone_rejected :
    OwnsNode ⟨2, "alice@x", "alice", 7, false, 0⟩
        (fun a => if a = "10.0.0.1:2018" then some 7 else none)
        "10.0.0.1:2018" = true ∧
    AuditJob ⟨2, "alice@x", "alice", 7, false, 0⟩
        ⟨"10.0.0.1:2018", "crontab", [1, 2]⟩
        ⟨none, true, Except.ok [⟨"backup"⟩], Except.ok [], true⟩ =
      ⟨Resp.respNotAllowed, [], []⟩ := by
  constructor <;> rfl

/-- C3 amended: for a request that passed body validation, the dispatch is
issued exactly when the node-permission check passes AND the caller is
additionally in the Super Group or has `Root = true`; node ownership alone
is not sufficient. -/
theorem auditJob_dispatch_iff_owner_and_privileged
    (claims : CustomerClaims) (reqBody : AuditJobReqParams) (env : AuditEnv)
    (hv : env.verifyErr = none) :
    (AuditJob claims reqBody env).calls ≠ [] ↔
      (env.nodePermission = true ∧
        (claims.GroupID = SuperGroupID ∨ claims.Root = true)) := by
  obtain ⟨ve, np, cr, dr, ew⟩ := env
  simp only at hv
  subst hv
  cases np with
  | false => simp [AuditJob]
  | true =>
    by_cases hauth : claims.GroupID ≠ SuperGroupID ∧ claims.Root = false
    · have h1 : ¬ (claims.GroupID = SuperGroupID ∨ claims.Root = true) := by
        rcases hauth with ⟨h, h2⟩
        simp [h, h2]
      simp [AuditJob, hauth, h1]
    · have h1 : claims.GroupID = SuperGroupID ∨ claims.Root = true := by
        rcases Decidable.not_and_iff_or_not.mp hauth with h | h
        · exact Or.inl (by simpa using h)
        · exact Or.inr (by simpa [Bool.not_eq_false] using h)
      by_cases hj : reqBody.JobType = "crontab" <;>
        [cases cr; cases dr] <;> simp [AuditJob, hauth, hj, h1]

/-- Witness for the amended C3 at a concrete input: a super-group caller
who passes the node check gets a dispatch issued. -/
theorem auditJob_dispatch_iff_witness :
    (AuditJob ⟨1, "root@x", "root", 1, false, 0⟩
        ⟨"10.0.0.1:2018", "crontab", [1]⟩
        ⟨none, true, Except.ok [⟨"backup"⟩], Except.ok [], true⟩).calls ≠ [] :=
  (auditJob_dispatch_iff_owner_and_privileged _ _ _ rfl).mpr
    ⟨rfl, Or.inl rfl⟩

/-- C5: on a successful dispatch, the published event's `Subject` is the
names of the jobs the remote returned, in the remote's order, joined with
"," — in both the crontab and the daemon branch. -/
theorem auditJob_subject_joined_names
    (claims : CustomerClaims) (reqBody : AuditJobReqParams) (env : AuditEnv)
    (hv : env.verifyErr = none) (hp : env.nodePermission = true)
    (ha : claims.GroupID = SuperGroupID ∨ claims.Root = true) :
    (∀ reply, reqBody.JobType = "crontab" →
      env.crontabReply = Except.ok reply →
      (AuditJob claims reqBody env).events =
        [⟨String.intercalate "," (reply.map (fun v => v.Name)),
          EventKind.auditCrontabJob, reqBody.Addr, reqBody⟩]) ∧
    (∀ reply, reqBody.JobType ≠ "crontab" →
      env.daemonReply = Except.ok reply →
      (AuditJob claims reqBody env).events =
        [⟨String.intercalate "," (reply.map (fun v => v.Name)),
          EventKind.auditDaemonJob, reqBody.Addr, reqBody⟩]) := by
  obtain ⟨ve, np, cr, dr, ew⟩ := env
  simp only at hv hp
  subst hv hp
  have hauth : ¬ (claims.GroupID ≠ SuperGroupID ∧ claims.Root = false) := by
    rcases ha with h | h <;> simp [h]
  constructor <;> intro reply hj hr <;> simp only at hr <;> subst hr <;>
    simp [AuditJob, hauth, hj]

/-- Witness for C5 at a concrete input (Scenario B): remote returns jobs
named "backup" and "cleanup"; the event's subject is "backup,cleanup". -/
theorem auditJob_subject_joined_names_witness :
    (AuditJob ⟨1, "root@x", "root", 1, true, 0⟩
        ⟨"10.0.0.1:2018", "crontab", [1, 2]⟩
        ⟨none, true, Except.ok [⟨"backup"⟩, ⟨"cleanup"⟩], Except.ok [],
          true⟩).events =
      [⟨"backup,cleanup", EventKind.auditCrontabJob, "10.0.0.1:2018",
        ⟨"10.0.0.1:2018", "crontab", [1, 2]⟩⟩] := by
  have h :=
    (auditJob_subject_joined_names ⟨1, "root@x", "root", 1, true, 0⟩
        ⟨"10.0.0.1:2018", "crontab", [1, 2]⟩
        ⟨none, true, Except.ok [⟨"backup"⟩, ⟨"cleanup"⟩], Except.ok [], true⟩
        rfl rfl (Or.inr rfl)).1
      [⟨"backup"⟩, ⟨"cleanup"⟩] rfl rfl
  exact h.trans (by decide)

/-- C8: the response of a successfully dispatched `AuditJob` request is
success for EVERY outcome of the audit-event write — publishing is
best-effort and never fails the enclosing operation. -/
theorem auditJob_success_ignores_event_write
    (claims : CustomerClaims) (reqBody : AuditJobReqParams)
    (cr : Except String (List CrontabJob)) (dr : Except String (List DaemonJob))
    (ha : claims.GroupID = SuperGroupID ∨ claims.Root = true)
    (hc : reqBody.JobType = "crontab" → ∃ reply, cr = Except.ok reply)
    (hd : reqBody.JobType ≠ "crontab" → ∃ reply, dr = Except.ok reply) :
    ∀ eventWriteOk : Bool,
      (AuditJob claims reqBody ⟨none, true, cr, dr, eventWriteOk⟩).resp =
        Resp.respSucc := by
  intro ew
  have hauth : ¬ (claims.GroupID ≠ SuperGroupID ∧ claims.Root = false) := by
    rcases ha with h | h <;> simp [h]
  by_cases hj : reqBody.JobType = "crontab"
  · obtain ⟨reply, hr⟩ := hc hj
    subst hr
    simp [AuditJob, hauth, hj]
  · obtain ⟨reply, hr⟩ := hd hj
    subst hr
    simp [AuditJob, hauth, hj]

/-- Witness for C8 at a concrete input: the response is success even when
the event write fails (`eventWriteOk = false`). -/
theorem auditJob_success_ignores_event_write_witness :
    (AuditJob ⟨1, "root@x", "root", 1, true, 0⟩
        ⟨"10.0.0.1:2018", "crontab", [1]⟩
        ⟨none, true, Except.ok [⟨"backup"⟩], Except.ok [], false⟩).resp =
      Resp.respSucc :=
  auditJob_success_ignores_event_write _ _ _ _ (Or.inr rfl)
    (fun _ => ⟨[⟨"backup"⟩], rfl⟩) (fun h => absurd rfl h) false

/-- C4 counterexample: a user with `Root = true` but `GroupID = 7` asking
for the full user list (`IsAll = true`) is rejected as not-allowed —
`GetUserList` checks only super-group membership, never the `Root` flag
(user.go line 376). -/
theorem getUserList_root_isAll_rejected :
    GetUserList ⟨true, 0, 1, 20⟩
        ⟨none, Except.ok ⟨2, "bob@x", "bob", 7, true, 0⟩,
          DbResult.ok 3, DbResult.ok []⟩ =
      [UserAction.parseClaims, UserAction.respNotAllowed] := by
  rfl

/-- C4 amended: a `GetUserList` request with `IsAll = true` whose token
parses is rejected as not-allowed exactly when the caller's `GroupID` is
not the Super Group — the `Root` flag plays no role in this check. -/
theorem getUserList_isAll_iff_super_group
    (reqBody : GetUsersParams) (env : UserListEnv) (claims : CustomerClaims)
    (hc : env.claimsResult = Except.ok claims) (hall : reqBody.IsAll = true) :
    UserAction.respNotAllowed ∈ GetUserList reqBody env ↔
      claims.GroupID ≠ SuperGroupID := by
  obtain ⟨vErr, cRes, cnt, fnd⟩ := env
  simp only at hc
  subst hc
  by_cases hg : claims.GroupID = SuperGroupID <;>
    cases vErr <;> cases cnt <;> cases fnd <;>
    simp [GetUserList, hall, hg]

/-- Witness for the amended C4 at a concrete input: a root user in group 7
asking with `IsAll = true` is rejected. -/
theorem getUserList_isAll_iff_super_group_witness :
    UserAction.respNotAllowed ∈
      GetUserList ⟨true, 0, 1, 20⟩
        ⟨none, Except.ok ⟨2, "bob@x", "bob", 7, true, 0⟩,
          DbResult.ok 3, DbResult.ok []⟩ :=
  (getUserList_isAll_iff_super_group ⟨true, 0, 1, 20⟩
      ⟨none, Except.ok ⟨2, "bob@x", "bob", 7, true, 0⟩,
        DbResult.ok 3, DbResult.ok []⟩
      ⟨2, "bob@x", "bob", 7, true, 0⟩ rfl rfl).mpr (by decide)

/-- C9: when the request body fails validation, `GetUserList` responds a
parameter error but does not return: the trace continues with claims
parsing and (here, for an authorized super-group caller) reaches the
database count query for the invalid request. -/
theorem getUserList_param_error_continues
    (reqBody : GetUsersParams) (env : UserListEnv) (e : String)
    (claims : CustomerClaims)
    (hv : env.validErr = some e) (hc : env.claimsResult = Except.ok claims)
    (hall : reqBody.IsAll = true) (hg : claims.GroupID = SuperGroupID) :
    (GetUserList reqBody env).take 3 =
      [UserAction.respParamError e, UserAction.parseClaims,
        UserAction.dbCountAll] := by
  obtain ⟨vErr, cRes, cnt, fnd⟩ := env
  simp only at hv hc
  subst hv hc
  simp [GetUserList, hall, hg]

/-- Witness for C9 at a concrete input: the invalid request still parses
claims and runs the count query. -/
theorem getUserList_param_error_continues_witness :
    (GetUserList ⟨true, 0, 1, 20⟩
        ⟨some "pagesize out of range",
          Except.ok ⟨1, "root@x", "root", 1, true, 0⟩,
          DbResult.ok 3, DbResult.ok []⟩).take 3 =
      [UserAction.respParamError "pagesize out of range",
        UserAction.parseClaims, UserAction.dbCountAll] :=
  getUserList_param_error_continues ⟨true, 0, 1, 20⟩
    ⟨some "pagesize out of range",
      Except.ok ⟨1, "root@x", "root", 1, true, 0⟩,
      DbResult.ok 3, DbResult.ok []⟩
    "pagesize out of range" ⟨1, "root@x", "root", 1, true, 0⟩
    rfl rfl rfl rfl

/-- C6: a login failing because the username is unknown and one failing
because the password is wrong produce the exact same response — and that
response (for a validated body) is the one fixed invalid-credentials
error, so nothing reveals whether the username exists. -/
theorem login_failure_indistinguishable
    (reqBody : LoginReqParams) (cfgJwtExpires : Int)
    (cfgJwtSigningKey : String) (validErr : Option String) (now : Int)
    (signFails : Bool) :
    Login reqBody cfgJwtExpires cfgJwtSigningKey
        ⟨validErr, VerifyOutcome.unknownUser, now, signFails⟩ =
      Login reqBody cfgJwtExpires cfgJwtSigningKey
        ⟨validErr, VerifyOutcome.wrongPassword, now, signFails⟩ ∧
    Login reqBody cfgJwtExpires cfgJwtSigningKey
        ⟨none, VerifyOutcome.unknownUser, now, signFails⟩ =
      LoginResp.respAuthFailed "帐号或密码不正确" := by
  refine ⟨?_, rfl⟩
  cases validErr <;> rfl

/-- C7: a successful login issues claims whose `ExpiresAt` is the current
time plus the configured default duration when `Remember` is false, and
the current time plus exactly 30 days (in seconds) when `Remember` is
true. -/
theorem login_expiresAt
    (reqBody : LoginReqParams) (cfgJwtExpires : Int)
    (cfgJwtSigningKey : String) (user : User) (now : Int) :
    Login reqBody cfgJwtExpires cfgJwtSigningKey
        ⟨none, VerifyOutcome.found user, now, false⟩ =
      LoginResp.respSucc
        ⟨{ UserID := user.ID
           Mail := user.Mail
           Username := reqBody.Username
           GroupID := user.GroupID
           Root := user.Root
           ExpiresAt :=
             if reqBody.Remember then now + 30 * 24 * 60 * 60
             else now + cfgJwtExpires },
          cfgJwtSigningKey⟩
        user.GroupID user.Root user.Mail user.ID := by
  have h1 : now + 24 * 30 * 60 * 60 = now + 30 * 24 * 60 * 60 := by ring
  have h2 : cfgJwtExpires + now = now + cfgJwtExpires := Int.add_comm _ _
  simp [Login, h1, h2]

end Jiacrontab
